import Mathlib

/-!
Verification of the request-routing core of the `figma-ai-proxy` server
(`src/server.js`) and its Cloudflare-worker relay collaborator.

JavaScript strings are modelled as Lean `String`; the JS operations used by
the source (`slice`, `startsWith`, `includes`, `trim`, assignment/`delete` on
plain header objects, `||` on strings, truthiness) are given explicit
executable models below, working on the underlying character list.
Header objects (`req.headers`, the objects built by `buildForwardHeaders`)
are association lists `List (String × String)` with JS-object semantics:
lookup finds the first (unique) binding, assignment replaces in place or
appends, `delete` removes the binding.
-/

namespace FigmaProxy

/-- Model of JS `String.prototype.slice(n)`: drop the first `n` characters. -/
def strDrop (s : String) (n : Nat) : String := String.mk (s.data.drop n)

/-- Model of JS `String.prototype.slice(0, n)`: take the first `n` characters. -/
def strTake (s : String) (n : Nat) : String := String.mk (s.data.take n)

/-- Model of JS `String.prototype.startsWith`. -/
def strStartsWith (s pat : String) : Bool := s.data.take pat.data.length == pat.data

/-- Model of JS `String.prototype.includes` on character lists. -/
def listHasSub (pat : List Char) : List Char → Bool
  | [] => pat.isEmpty
  | c :: rest => (((c :: rest).take pat.length) == pat) || listHasSub pat rest

/-- Model of JS `String.prototype.includes`. -/
def strContains (s pat : String) : Bool := listHasSub pat.data s.data

/-- JS whitespace relevant to `trim` for the configuration strings used here. -/
def isWsChar (c : Char) : Bool := c = ' ' || c = '\t' || c = '\n' || c = '\r'

/-- Model of JS `String.prototype.trim`. -/
def jsTrim (s : String) : String :=
  String.mk (((s.data.dropWhile isWsChar).reverse.dropWhile isWsChar).reverse)

/-- JS `a || b` where `a`, `b` are strings (empty string is falsy). -/
def jsOrS (a b : String) : String := if a = "" then b else a

-- =====================================================================
-- Header objects (JS plain objects with string values)
-- =====================================================================

/-- First binding for `key`, i.e. JS property read `h[key]` (absent ↦ `none`). -/
def hget {α : Type} : List (String × α) → String → Option α
  | [], _ => none
  | (k, v) :: rest, key => if k = key then some v else hget rest key

/-- JS property read defaulted as the falsy `''` when absent. -/
def hgetD (hs : List (String × String)) (key : String) : String := (hget hs key).getD ""

/-- JS property assignment `h[key] = val`: replace in place, else append. -/
def hset {α : Type} : List (String × α) → String → α → List (String × α)
  | [], key, val => [(key, val)]
  | (k, v) :: rest, key, val =>
      if k = key then (key, val) :: rest else (k, v) :: hset rest key val

/-- JS `delete h[key]`: remove the binding for `key`. -/
def hdel {α : Type} : List (String × α) → String → List (String × α)
  | [], _ => []
  | (k, v) :: rest, key => if k = key then hdel rest key else (k, v) :: hdel rest key

-- =====================================================================
-- JS values (for `req.body` parsed by `express.json`)
-- =====================================================================

/-- A JavaScript value as observed by the validation code: `undefined`, `null`,
booleans, (integer) numbers, strings, arrays and plain objects. -/
inductive JsValue
  | jsUndefined
  | jsNull
  | bool (b : Bool)
  | num (n : Int)
  | str (s : String)
  | arr (elems : List JsValue)
  | obj (fields : List (String × JsValue))

/-- JS truthiness. -/
def jsTruthy : JsValue → Bool
  | .jsUndefined => false
  | .jsNull => false
  | .bool b => b
  | .num n => n != 0
  | .str s => s ≠ ""
  | .arr _ => true
  | .obj _ => true

/-- JS `typeof v === 'object'` (true for `null`, arrays and objects). -/
def jsTypeofObject : JsValue → Bool
  | .jsNull => true
  | .arr _ => true
  | .obj _ => true
  | _ => false

/-- First field binding, JS property read on a parsed body. -/
def fieldsGet : List (String × JsValue) → String → JsValue
  | [], _ => .jsUndefined
  | (k, v) :: rest, key => if k = key then v else fieldsGet rest key

/-- JS property read `body[key]` (non-objects have no own properties here). -/
def objGet : JsValue → String → JsValue
  | .obj fields, key => fieldsGet fields key
  | _, _ => .jsUndefined

/-- JS `Object.keys`. -/
def jsKeys : JsValue → List String
  | .obj fields => fields.map Prod.fst
  | .arr elems => (List.range elems.length).map toString
  | _ => []

-- =====================================================================
-- Validation (src/server.js:208-257, `validateYandexRequest`)
-- =====================================================================

/-- The `error` object of a failed validation: `{ error, hint, received? }`. -/
structure VError where
  error : String
  hint : String
  received : Option (List String)
deriving DecidableEq

/-- `validateYandexRequest(req)` (src/server.js:208-257). `none` models
`{ valid: true }`; `some (status, e)` models `{ valid: false, status, error: e }`.
`reqHeaders` is Express's `req.headers`, `body` is `req.body`. -/
def validateYandexRequest (reqHeaders : List (String × String)) (body : JsValue) :
    Option (Nat × VError) :=
  let apiKey := jsOrS (hgetD reqHeaders "authorization")
      (jsOrS (hgetD reqHeaders "Authorization") "")
  if apiKey = "" then
    some (401, ⟨"Authorization header is required",
      "Include your Yandex Cloud API key: \"Authorization: Api-Key YOUR_KEY\"", none⟩)
  else if !(strStartsWith apiKey "Api-Key ") && !(strStartsWith apiKey "Bearer ") then
    some (401, ⟨"Invalid Authorization format",
      "Use format: \"Api-Key YOUR_KEY\" or \"Bearer YOUR_IAM_TOKEN\"", none⟩)
  else if !(jsTruthy body) || !(jsTypeofObject body) then
    some (400, ⟨"Invalid request body",
      "Send JSON with modelUri, completionOptions, and messages", none⟩)
  else if !(jsTruthy (objGet body "modelUri")) || !(jsTruthy (objGet body "messages")) then
    some (400, ⟨"Missing required fields",
      "Request must include modelUri and messages", some (jsKeys body)⟩)
  else
    none

-- =====================================================================
-- Header composition (src/server.js:60-80 and 319-346)
-- =====================================================================

/-- `PROVIDERS.claude.transformHeaders` (src/server.js:60-80). -/
def claudeTransformHeaders (headers : List (String × String)) : List (String × String) :=
  let transformed := headers
  let auth := jsOrS (hgetD transformed "authorization")
      (jsOrS (hgetD transformed "Authorization") "")
  let transformed :=
    if strStartsWith auth "Bearer " then
      hdel (hdel (hset transformed "x-api-key" (strDrop auth 7)) "authorization")
        "Authorization"
    else transformed
  let transformed :=
    if hgetD transformed "anthropic-version" = "" then
      hset transformed "anthropic-version" "2023-06-01"
    else transformed
  hdel transformed "anthropic-dangerous-direct-browser-access"

/-- `buildForwardHeaders(req, provider)` (src/server.js:319-346). `reqHeaders`
is Express's `req.headers` (header names arrive lowercased by Node), and
`transform` is the provider's `transformHeaders` hook. -/
def buildForwardHeaders (reqHeaders : List (String × String))
    (transform : Option (List (String × String) → List (String × String))) :
    List (String × String) :=
  let headers : List (String × String) := []
  let headers := hset headers "Content-Type"
      (jsOrS (hgetD reqHeaders "content-type") "application/json")
  let headers :=
    if hgetD reqHeaders "authorization" ≠ "" then
      hset headers "Authorization" (hgetD reqHeaders "authorization")
    else headers
  let headers :=
    if hgetD reqHeaders "anthropic-version" ≠ "" then
      hset headers "anthropic-version" (hgetD reqHeaders "anthropic-version")
    else headers
  let headers :=
    if hgetD reqHeaders "anthropic-dangerous-direct-browser-access" ≠ "" then
      hset headers "anthropic-dangerous-direct-browser-access"
        (hgetD reqHeaders "anthropic-dangerous-direct-browser-access")
    else headers
  match transform with
  | some f => f headers
  | none => headers

-- =====================================================================
-- Provider table (src/server.js:47-115)
-- =====================================================================

inductive PathMode
  | fixed
  | subpath
deriving DecidableEq

/-- One row of the `PROVIDERS` table (src/server.js:47). -/
structure Provider where
  name : String
  targetBaseUrl : String
  pathMode : PathMode
  transformHeaders : Option (List (String × String) → List (String × String))
  validateRequest :
    Option (List (String × String) → JsValue → Option (Nat × VError))

def yandexProvider : Provider :=
  { name := "Yandex Cloud",
    targetBaseUrl := "https://llm.api.cloud.yandex.net/foundationModels/v1/completion",
    pathMode := .fixed,
    transformHeaders := none,
    validateRequest := some validateYandexRequest }

def claudeProvider : Provider :=
  { name := "Anthropic Claude",
    targetBaseUrl := "https://api.anthropic.com/v1",
    pathMode := .subpath,
    transformHeaders := some claudeTransformHeaders,
    validateRequest := none }

def geminiProvider : Provider :=
  { name := "Google Gemini",
    targetBaseUrl := "https://generativelanguage.googleapis.com/v1beta",
    pathMode := .subpath,
    transformHeaders := none,
    validateRequest := none }

def groqProvider : Provider :=
  { name := "Groq",
    targetBaseUrl := "https://api.groq.com/openai/v1",
    pathMode := .subpath,
    transformHeaders := none,
    validateRequest := none }

def mistralProvider : Provider :=
  { name := "Mistral AI",
    targetBaseUrl := "https://api.mistral.ai/v1",
    pathMode := .subpath,
    transformHeaders := none,
    validateRequest := none }

def cohereProvider : Provider :=
  { name := "Cohere",
    targetBaseUrl := "https://api.cohere.ai/v1",
    pathMode := .subpath,
    transformHeaders := none,
    validateRequest := none }

/-- The `PROVIDERS` object (src/server.js:47-115), as an ordered key table. -/
def PROVIDERS : List (String × Provider) :=
  [("yandex", yandexProvider), ("claude", claudeProvider), ("gemini", geminiProvider),
   ("groq", groqProvider), ("mistral", mistralProvider), ("cohere", cohereProvider)]

-- =====================================================================
-- Transport resolution (src/server.js:131-153, `resolveProxyConfig`)
-- =====================================================================

inductive ProxyType
  | worker
  | socks5
  | http
deriving DecidableEq

structure ProxyConfig where
  type : ProxyType
  url : String
deriving DecidableEq

/-- JS `(s && s.trim())` as used in the `||` chain of src/server.js:137:
`none` when the variable is unset, empty, or trims to empty; otherwise the
trimmed value. -/
def truthyTrim : Option String → Option String
  | none => none
  | some s => if s = "" then none else if jsTrim s = "" then none else some (jsTrim s)

/-- `resolveProxyConfig(providerKey)` (src/server.js:131-153). `perProvider`
models the per-target override variable `PROXY_<KEY>`, `globalUrl` models the
global `PROXY_URL`; a `none` result is a direct connection. -/
def resolveProxyConfig (perProvider globalUrl : Option String) : Option ProxyConfig :=
  if perProvider = some "direct" then none
  else
    match (truthyTrim perProvider).orElse (fun _ => truthyTrim globalUrl) with
    | none => none
    | some raw =>
        if strStartsWith raw "worker://" then
          some ⟨.worker, "https://" ++ strDrop raw 9⟩
        else if strStartsWith raw "socks5://" || strStartsWith raw "socks4://"
            || strStartsWith raw "socks://" then
          some ⟨.socks5, raw⟩
        else if strStartsWith raw "http://" || strStartsWith raw "https://" then
          some ⟨.http, raw⟩
        else
          none

-- =====================================================================
-- URL composition (src/server.js:301-313, `buildTargetUrl`)
-- =====================================================================

/-- Model of `targetBaseUrl.replace(/\/$/, '')`: strip one trailing slash. -/
def stripTrailingSlash (s : String) : String :=
  if s.data.getLast? = some '/' then String.mk s.data.dropLast else s

/-- `buildTargetUrl(req, provider, providerKey)` (src/server.js:301-313).
`originalUrl` is Express's `req.originalUrl` (path plus query string). -/
def buildTargetUrl (originalUrl : String) (provider : Provider) (providerKey : String) :
    String :=
  match provider.pathMode with
  | .fixed => provider.targetBaseUrl
  | .subpath =>
      let pre := "/api/" ++ providerKey
      let subpath := strDrop originalUrl pre.length
      let base := stripTrailingSlash provider.targetBaseUrl
      base ++ subpath

-- =====================================================================
-- Rate limiting (src/server.js:411-424 and 536-547)
-- =====================================================================

/-- Per-key limiter state: hit count within the current window, window start
time (milliseconds). -/
structure LimiterEntry where
  totalHits : Nat
  windowStart : Nat
deriving DecidableEq

/-- The limiter key of src/server.js:422: `req.ip + "-" + providerKey`. -/
def rateKey (ip providerKey : String) : String := ip ++ "-" ++ providerKey

/-- Modelled from the spec: the fixed-window counter of the
`express-rate-limit` middleware — configured at src/server.js:411-424 but
implemented outside this repository. Per key it keeps a hit counter and a
window start; a hit at or after the window's end resets the entry to a fresh
window; every hit increments the counter; the request is allowed while the
counter stays within `maxReq` (so with `maxReq = 60` the first 60 hits of a
window pass and the 61st is blocked). Returns (allowed?, new store). -/
def limiterStep (windowMs maxReq : Nat) (st : List (String × LimiterEntry))
    (key : String) (now : Nat) : Bool × List (String × LimiterEntry) :=
  let e : LimiterEntry :=
    match hget st key with
    | none => ⟨0, now⟩
    | some e => if e.windowStart + windowMs ≤ now then ⟨0, now⟩ else e
  let hits := e.totalHits + 1
  (hits ≤ maxReq, hset st key ⟨hits, e.windowStart⟩)

inductive RouterStepOutcome
  | dispatched
  | rateLimited (retryAfter : Nat)
deriving DecidableEq

/-- The rate-limit gate of `proxyRequest` (src/server.js:536-547) with the
configuration of src/server.js:411-424: window 60000 ms, max 60, key
`rateKey`. A blocked request is answered with the configured message
(`retryAfter: 60`, src/server.js:418) and handling stops with no outbound
call; otherwise the request proceeds to validation and dispatch. -/
def routerStep (st : List (String × LimiterEntry)) (ip providerKey : String)
    (now : Nat) : RouterStepOutcome × List (String × LimiterEntry) :=
  let r := limiterStep 60000 60 st (rateKey ip providerKey) now
  (if r.1 then .dispatched else .rateLimited 60, r.2)

/-- Sequential handling of a list of requests `(ip, providerKey, time)`. -/
def runRouter (st : List (String × LimiterEntry)) :
    List (String × String × Nat) →
      List RouterStepOutcome × List (String × LimiterEntry)
  | [] => ([], st)
  | (ip, pk, t) :: rest =>
      let r := routerStep st ip pk t
      let rr := runRouter r.2 rest
      (r.1 :: rr.1, rr.2)

-- =====================================================================
-- Outbound dispatch (src/server.js:269-293, `proxyFetch`)
-- =====================================================================

inductive FetchVia
  | workerFetch
  | dispatcherFetch
  | directFetch
deriving DecidableEq

/-- The outbound network call `proxyFetch` ends up issuing: destination URL,
headers, body, and which of the three fetch paths was taken. -/
structure FetchCall where
  url : String
  headers : List (String × String)
  body : String
  via : FetchVia

/-- `proxyFetch(url, options, providerKey)` (src/server.js:269-293).
`config` models `PROXY_CONFIGS[providerKey]`, `hasDispatcher` the presence of
`PROXY_DISPATCHERS[providerKey]`, and `authToken` the environment variable
`PROXY_AUTH_TOKEN` (the shared relay secret). -/
def proxyFetch (config : Option ProxyConfig) (hasDispatcher : Bool)
    (authToken : Option String) (url : String)
    (headers : List (String × String)) (body : String) : FetchCall :=
  match config with
  | some c =>
      if c.type = ProxyType.worker then
        let workerHeaders := hset headers "X-Target-URL" url
        let workerHeaders :=
          match authToken with
          | some t => if t ≠ "" then hset workerHeaders "X-Auth-Token" t else workerHeaders
          | none => workerHeaders
        ⟨c.url, workerHeaders, body, .workerFetch⟩
      else if hasDispatcher then ⟨url, headers, body, .dispatcherFetch⟩
      else ⟨url, headers, body, .directFetch⟩
  | none =>
      if hasDispatcher then ⟨url, headers, body, .dispatcherFetch⟩
      else ⟨url, headers, body, .directFetch⟩

-- =====================================================================
-- Error classification (src/server.js:351-384, `handleProxyError`)
-- =====================================================================

/-- The caught JS exception, via the two attributes the classifier inspects. -/
structure JsError where
  name : String
  message : String
deriving DecidableEq

/-- A classified client-facing error body `{ error, message, hint }`. -/
structure ErrorBody where
  error : String
  message : String
  hint : String
deriving DecidableEq

/-- `handleProxyError(res, error, startTime, provider)` (src/server.js:351-384):
the HTTP status and JSON body sent to the client for a failure thrown during
dispatch. -/
def handleProxyError (e : JsError) (providerName : String) : Nat × ErrorBody :=
  if e.name = "AbortError" || strContains e.message "timeout" then
    (504, ⟨"Gateway Timeout", "Request to " ++ providerName ++ " API timed out",
      "Try again or check the provider status"⟩)
  else if strContains e.message "ECONNREFUSED" && strContains e.message "proxy" then
    (502, ⟨"Proxy Connection Failed", "Unable to connect to proxy for " ++ providerName,
      "Check that the proxy server is running and accessible"⟩)
  else if strContains e.message "fetch failed" || strContains e.message "ECONNREFUSED" then
    (502, ⟨"Bad Gateway", "Unable to connect to " ++ providerName ++ " API",
      providerName ++ " may be temporarily unavailable"⟩)
  else
    (500, ⟨"Internal Proxy Error", "An unexpected error occurred",
      "Contact proxy administrator if this persists"⟩)

-- =====================================================================
-- JSON texts (the runtime's `JSON.parse` / `JSON.stringify` /
-- `response.json()`, as used by src/server.js:408, 573, 582-602)
-- =====================================================================

mutual

/-- A parsed JSON value (the fragment exercised by this proxy: null,
booleans, integer numbers, strings, arrays, objects). -/
inductive Json
  | null
  | bool (b : Bool)
  | num (n : Int)
  | str (s : String)
  | arr (elems : JsonItems)
  | obj (fields : JsonFields)

/-- The element sequence of a JSON array. -/
inductive JsonItems
  | nil
  | cons (hd : Json) (tl : JsonItems)

/-- The field sequence of a JSON object. -/
inductive JsonFields
  | nil
  | cons (key : String) (val : Json) (tl : JsonFields)

end

/-- Array elements collected as an ordinary list during parsing, converted on
completion of the array. -/
def listToItems : List Json → JsonItems
  | [] => .nil
  | v :: vs => .cons v (listToItems vs)

/-- Object fields collected as an ordinary list during parsing, converted on
completion of the object. -/
def listToFields : List (String × Json) → JsonFields
  | [] => .nil
  | (k, v) :: fs => .cons k v (listToFields fs)

/-- Whitespace skipping of the JSON grammar. -/
def skipWs : List Char → List Char
  | [] => []
  | c :: rest => if isWsChar c then skipWs rest else c :: rest

/-- The single-character string escapes of JSON (`\uXXXX` is outside the
modelled fragment): `\"`, `\\` and `\/` denote themselves, and `\n`, `\t`,
`\r`, `\b`, `\f` the usual control characters. -/
def escToChar (c : Char) : Option Char :=
  if c = 'n' then some '\n'
  else if c = 't' then some '\t'
  else if c = 'r' then some '\r'
  else if c = 'b' then some (Char.ofNat 8)
  else if c = 'f' then some (Char.ofNat 12)
  else if c = '"' || c = '\\' || c = '/' then some c
  else none

/-- Parse the remainder of a JSON string literal after the opening quote:
returns the decoded characters and the input after the closing quote. -/
def parseStringBody : List Char → Option (List Char × List Char)
  | [] => none
  | c :: rest =>
      if c = '"' then some ([], rest)
      else if c = '\\' then
        match rest with
        | [] => none
        | e :: rest' =>
            match escToChar e with
            | none => none
            | some ch =>
                match parseStringBody rest' with
                | none => none
                | some (cs, r) => some (ch :: cs, r)
      else
        match parseStringBody rest with
        | none => none
        | some (cs, r) => some (c :: cs, r)

def digitsToNat (ds : List Char) : Nat :=
  ds.foldl (fun acc c => acc * 10 + (c.toNat - 48)) 0

/-- Parse a JSON integer number (the numeric fragment used here). -/
def parseNumber (input : List Char) : Option (Int × List Char) :=
  match input with
  | '-' :: rest =>
      let ds := rest.takeWhile Char.isDigit
      if ds.isEmpty then none
      else some (-(digitsToNat ds : Int), rest.dropWhile Char.isDigit)
  | _ =>
      let ds := input.takeWhile Char.isDigit
      if ds.isEmpty then none
      else some ((digitsToNat ds : Int), input.dropWhile Char.isDigit)

/-- Pending container frames of the JSON parsing machine. -/
inductive PFrame
  | arrF (done : List Json)
  | objF (done : List (String × Json)) (key : String)

/-- Machine mode: about to parse a value, or just completed one. -/
inductive PState
  | parseV
  | haveV (v : Json)

/-- One-pass JSON parsing machine (fuel-indexed so that it is structurally
recursive and evaluates inside the kernel). Each recursive call follows the
consumption of at least one input character, so `length + 1` fuel always
suffices. -/
def pstep : Nat → PState → List PFrame → List Char → Option (Json × List Char)
  | 0, _, _, _ => none
  | Nat.succ fuel, PState.parseV, fs, input =>
      match skipWs input with
      | [] => none
      | c :: rest =>
          if c = 'n' then
            if rest.take 3 == ['u', 'l', 'l'] then
              pstep fuel (.haveV .null) fs (rest.drop 3)
            else none
          else if c = 't' then
            if rest.take 3 == ['r', 'u', 'e'] then
              pstep fuel (.haveV (.bool true)) fs (rest.drop 3)
            else none
          else if c = 'f' then
            if rest.take 4 == ['a', 'l', 's', 'e'] then
              pstep fuel (.haveV (.bool false)) fs (rest.drop 4)
            else none
          else if c = '"' then
            match parseStringBody rest with
            | none => none
            | some (cs, r) => pstep fuel (.haveV (.str (String.mk cs))) fs r
          else if c = '[' then
            match skipWs rest with
            | ']' :: r => pstep fuel (.haveV (.arr .nil)) fs r
            | r2 => pstep fuel .parseV (PFrame.arrF [] :: fs) r2
          else if c = '\x7b' then
            match skipWs rest with
            | '\x7d' :: r => pstep fuel (.haveV (.obj .nil)) fs r
            | '"' :: r =>
                match parseStringBody r with
                | none => none
                | some (ks, r2) =>
                    match skipWs r2 with
                    | ':' :: r3 =>
                        pstep fuel .parseV (PFrame.objF [] (String.mk ks) :: fs) r3
                    | _ => none
            | _ => none
          else
            match parseNumber (c :: rest) with
            | none => none
            | some (n, r) => pstep fuel (.haveV (.num n)) fs r
  | Nat.succ _, PState.haveV v, [], input => some (v, input)
  | Nat.succ fuel, PState.haveV v, PFrame.arrF done :: fs, input =>
      match skipWs input with
      | ',' :: r => pstep fuel .parseV (PFrame.arrF (done ++ [v]) :: fs) r
      | ']' :: r => pstep fuel (.haveV (.arr (listToItems (done ++ [v])))) fs r
      | _ => none
  | Nat.succ fuel, PState.haveV v, PFrame.objF done key :: fs, input =>
      match skipWs input with
      | ',' :: r =>
          match skipWs r with
          | '"' :: r1 =>
              match parseStringBody r1 with
              | none => none
              | some (ks, r2) =>
                  match skipWs r2 with
                  | ':' :: r3 =>
                      pstep fuel .parseV
                        (PFrame.objF (done ++ [(key, v)]) (String.mk ks) :: fs) r3
                  | _ => none
          | _ => none
      | '\x7d' :: r => pstep fuel (.haveV (.obj (listToFields (done ++ [(key, v)])))) fs r
      | _ => none

/-- Model of `JSON.parse` / `response.json()` on the modelled JSON fragment:
`none` models a thrown `SyntaxError` (trailing non-whitespace also rejects). -/
def jsonParse (s : String) : Option Json :=
  match pstep (s.data.length + 1) .parseV [] s.data with
  | none => none
  | some (v, rest) => if skipWs rest = [] then some v else none

/-- `JSON.stringify` escaping for the characters of the modelled fragment. -/
def escapeChar (c : Char) : List Char :=
  if c = '"' then ['\\', '"'] else if c = '\\' then ['\\', '\\'] else [c]

/-- `JSON.stringify` of a string value. -/
def stringifyString (s : String) : String :=
  String.mk ('"' :: s.data.foldr (fun c acc => escapeChar c ++ acc) ['"'])

mutual

/-- Model of `JSON.stringify` (without the replacer/space arguments, as the
source calls it): canonical serialization with no whitespace, fields and
elements in order. -/
def jsonStringify : Json → String
  | .null => "null"
  | .bool true => "true"
  | .bool false => "false"
  | .num n => toString n
  | .str s => stringifyString s
  | .arr elems => "[" ++ stringifyItems elems ++ "]"
  | .obj fields => "\x7b" ++ stringifyFields fields ++ "\x7d"

/-- Comma-separated serialization of array elements. -/
def stringifyItems : JsonItems → String
  | .nil => ""
  | .cons v tl =>
      match tl with
      | .nil => jsonStringify v
      | _ => jsonStringify v ++ "," ++ stringifyItems tl

/-- Comma-separated serialization of object fields. -/
def stringifyFields : JsonFields → String
  | .nil => ""
  | .cons k v tl =>
      match tl with
      | .nil => stringifyString k ++ ":" ++ jsonStringify v
      | _ => stringifyString k ++ ":" ++ jsonStringify v ++ "," ++ stringifyFields tl

end

/-- The body sent upstream for a proxied request: `express.json` parses the
inbound raw body bytes into `req.body` (src/server.js:408) and dispatch sends
`JSON.stringify(req.body)` (src/server.js:573). `none` models a raw body the
JSON parser rejects (no dispatch happens for it). -/
def forwardedBody (rawBody : String) : Option String :=
  (jsonParse rawBody).map jsonStringify

-- =====================================================================
-- Response relay (src/server.js:582-606)
-- =====================================================================

/-- The upstream-derived body relayed to the client: decoded JSON, or the
diagnostic envelope `{ error, status, body }` of src/server.js:593-597. -/
inductive UpstreamBody
  | json (data : Json)
  | envelope (error : String) (status : Nat) (excerpt : String)

/-- What the client receives: a relayed upstream body or a classified
failure body. -/
inductive ClientBody
  | upstream (b : UpstreamBody)
  | failure (e : ErrorBody)

/-- A `SyntaxError` thrown by `response.json()` / `JSON.parse` on invalid
JSON (the classifier inspects only these two fields). -/
def jsonSyntaxError : JsError := ⟨"SyntaxError", "Unexpected token"⟩

/-- The decode step of `proxyRequest` (src/server.js:582-599): on a JSON
content type the body is decoded with `response.json()`, whose failure throws
out of the step; otherwise the text is decoded with `JSON.parse` and a
failure falls back to the diagnostic envelope. -/
def relayUpstreamBody (status : Nat) (contentType : String) (text : String) :
    Except JsError (Nat × UpstreamBody) :=
  if strContains contentType "application/json" then
    match jsonParse text with
    | some d => .ok (status, .json d)
    | none => .error jsonSyntaxError
  else
    match jsonParse text with
    | some d => .ok (status, .json d)
    | none =>
        .ok (status, .envelope "Non-JSON response from provider" status
          (strTake text 500))

/-- The full response path of `proxyRequest` for a received upstream response
(src/server.js:582-606): the decoded body is relayed at the upstream status;
a decode failure thrown inside the `try` block is caught and classified by
`handleProxyError`. -/
def routerRelayOutcome (status : Nat) (contentType text providerName : String) :
    Nat × ClientBody :=
  match relayUpstreamBody status contentType text with
  | .ok (s, b) => (s, .upstream b)
  | .error e =>
      ((handleProxyError e providerName).1, .failure (handleProxyError e providerName).2)

-- =====================================================================
-- General lemmas about the string and header models
-- =====================================================================

theorem data_append (s t : String) : (s ++ t).data = s.data ++ t.data := by
  cases s; cases t; rfl

theorem string_append_assoc (s t u : String) : s ++ t ++ u = s ++ (t ++ u) := by
  apply String.ext
  simp [data_append]

theorem string_append_empty (s : String) : s ++ "" = s := by
  apply String.ext
  simp [data_append]

theorem append_ne_empty_of_left_ne (s t : String) (h : s.data ≠ []) : s ++ t ≠ "" := by
  intro he
  apply h
  have hd := congrArg String.data he
  rw [data_append] at hd
  exact List.append_eq_nil.mp hd |>.1

theorem strDrop_append (s t : String) : strDrop (s ++ t) s.data.length = t := by
  apply String.ext
  simp [strDrop, data_append]

theorem strDrop_length (s : String) : strDrop s s.data.length = "" := by
  apply String.ext
  simp [strDrop]

theorem strStartsWith_append (s t : String) : strStartsWith (s ++ t) s = true := by
  simp [strStartsWith, data_append, List.take_left]

theorem ne_empty_of_strStartsWith (a p : String) (hp : p ≠ "")
    (h : strStartsWith a p = true) : a ≠ "" := by
  intro he
  subst he
  apply hp
  apply String.ext
  simpa [strStartsWith] using h.symm

@[simp] theorem jsTruthy_obj (fs : List (String × JsValue)) :
    jsTruthy (.obj fs) = true := rfl

@[simp] theorem jsTypeofObject_obj (fs : List (String × JsValue)) :
    jsTypeofObject (.obj fs) = true := rfl

@[simp] theorem objGet_obj (fs : List (String × JsValue)) (key : String) :
    objGet (.obj fs) key = fieldsGet fs key := rfl

@[simp] theorem jsKeys_obj (fs : List (String × JsValue)) :
    jsKeys (.obj fs) = fs.map Prod.fst := rfl

@[simp] theorem hget_nil {α : Type} (key : String) : hget ([] : List (String × α)) key = none := rfl

@[simp] theorem hget_hset {α : Type} (hs : List (String × α)) (k key : String) (val : α) :
    hget (hset hs k val) key = if k = key then some val else hget hs key := by
  induction hs with
  | nil => simp [hset, hget]
  | cons p rest ih =>
      obtain ⟨k', v'⟩ := p
      simp only [hset]
      by_cases h1 : k' = k
      · rw [if_pos h1]
        simp only [hget]
        rw [h1]
        by_cases h2 : k = key <;> simp [h2]
      · rw [if_neg h1]
        simp only [hget]
        by_cases h2 : k' = key
        · have h3 : k ≠ key := fun h => h1 (h2.trans h.symm)
          simp [h2, h3]
        · simp [h2, ih]

@[simp] theorem hget_hdel {α : Type} (hs : List (String × α)) (k key : String) :
    hget (hdel hs k) key = if k = key then none else hget hs key := by
  induction hs with
  | nil => simp [hdel]
  | cons p rest ih =>
      obtain ⟨k', v'⟩ := p
      simp only [hdel]
      by_cases h1 : k' = k
      · rw [if_pos h1, ih]
        simp only [hget]
        rw [h1]
        by_cases h2 : k = key <;> simp [h2]
      · rw [if_neg h1]
        simp only [hget]
        by_cases h2 : k' = key
        · have h3 : k ≠ key := fun h => h1 (h2.trans h.symm)
          simp [h2, h3]
        · simp [h2, ih]

theorem runRouter_append (st : List (String × LimiterEntry))
    (l₁ l₂ : List (String × String × Nat)) :
    runRouter st (l₁ ++ l₂) =
      ((runRouter st l₁).1 ++ (runRouter (runRouter st l₁).2 l₂).1,
       (runRouter (runRouter st l₁).2 l₂).2) := by
  induction l₁ generalizing st with
  | nil => simp [runRouter]
  | cons p rest ih =>
      obtain ⟨ip, pk, t⟩ := p
      simp [runRouter, ih]

theorem runRouter_allowed (ts : List Nat) :
    ∀ (st : List (String × LimiterEntry)) (ip pk : String) (c t₀ : Nat),
      hget st (rateKey ip pk) = some ⟨c, t₀⟩ →
      (∀ t ∈ ts, t < t₀ + 60000) →
      c + ts.length ≤ 60 →
      (runRouter st (ts.map fun t => (ip, pk, t))).1 =
          List.replicate ts.length .dispatched
        ∧ hget (runRouter st (ts.map fun t => (ip, pk, t))).2 (rateKey ip pk) =
            some ⟨c + ts.length, t₀⟩ := by
  induction ts with
  | nil =>
      intro st ip pk c t₀ hst hmem hc
      simpa [runRouter] using hst
  | cons t ts ih =>
      intro st ip pk c t₀ hst hmem hc
      have htw : ¬ (t₀ + 60000 ≤ t) := by
        have := hmem t (by simp)
        omega
      have hhits : c + 1 ≤ 60 := by
        simp at hc
        omega
      have hstep : routerStep st ip pk t =
          (.dispatched, hset st (rateKey ip pk) ⟨c + 1, t₀⟩) := by
        simp [routerStep, limiterStep, hst, htw, hhits]
      have ihe := ih (hset st (rateKey ip pk) ⟨c + 1, t₀⟩) ip pk (c + 1) t₀
        (by simp [hget_hset])
        (fun t' ht' => hmem t' (by simp [ht']))
        (by simp at hc ⊢; omega)
      have harith : c + 1 + ts.length = c + (ts.length + 1) := by omega
      simp only [List.map_cons, runRouter, hstep]
      constructor
      · simp [ihe.1, List.replicate_succ]
      · rw [harith] at ihe
        simp [ihe.2]

theorem runRouter_blocked (ts : List Nat) :
    ∀ (st : List (String × LimiterEntry)) (ip pk : String) (c t₀ : Nat),
      hget st (rateKey ip pk) = some ⟨c, t₀⟩ →
      (∀ t ∈ ts, t < t₀ + 60000) →
      60 ≤ c →
      (runRouter st (ts.map fun t => (ip, pk, t))).1 =
        List.replicate ts.length (.rateLimited 60) := by
  induction ts with
  | nil =>
      intro st ip pk c t₀ hst hmem hc
      simp [runRouter]
  | cons t ts ih =>
      intro st ip pk c t₀ hst hmem hc
      have htw : ¬ (t₀ + 60000 ≤ t) := by
        have := hmem t (by simp)
        omega
      have hhits : ¬ (c + 1 ≤ 60) := by omega
      have hstep : routerStep st ip pk t =
          (.rateLimited 60, hset st (rateKey ip pk) ⟨c + 1, t₀⟩) := by
        simp [routerStep, limiterStep, hst, htw, hhits]
      have ihe := ih (hset st (rateKey ip pk) ⟨c + 1, t₀⟩) ip pk (c + 1) t₀
        (by simp [hget_hset])
        (fun t' ht' => hmem t' (by simp [ht']))
        (by omega)
      simp only [List.map_cons, runRouter, hstep]
      simp [ihe, List.replicate_succ]

-- =====================================================================
-- Claim theorems
-- =====================================================================

/-- Claim C1: for a `subpath` target the composed outbound URL is the base URL
with any trailing slash stripped, concatenated verbatim with the portion of
the inbound URL after the `/api/\x7btarget\x7d` prefix (query string included);
for a `fixed` target the outbound URL is always the configured base URL. -/
theorem C1_path_composition :
    (∀ (p : Provider), p.pathMode = .subpath → ∀ key rest,
        buildTargetUrl ("/api/" ++ key ++ rest) p key =
          stripTrailingSlash p.targetBaseUrl ++ rest)
  ∧ (∀ (p : Provider), p.pathMode = .fixed → ∀ url key,
        buildTargetUrl url p key = p.targetBaseUrl)
  ∧ buildTargetUrl "/api/T/chat/completions?x=1"
      { name := "T", targetBaseUrl := "https://api.example.com/v1",
        pathMode := .subpath, transformHeaders := none, validateRequest := none } "T"
      = "https://api.example.com/v1/chat/completions?x=1" := by
  refine ⟨?_, ?_, ?_⟩
  · intro p hm key rest
    unfold buildTargetUrl
    rw [hm]
    have hlen : ("/api/" ++ key).length = ("/api/" ++ key).data.length := rfl
    simp only [hlen, strDrop_append]
  · intro p hm url key
    unfold buildTargetUrl
    rw [hm]
  · decide

/-- Witness for C1 at a concrete provider and inbound URL. -/
theorem C1_path_composition_witness :
    buildTargetUrl ("/api/" ++ "claude" ++ "/messages?x=1") claudeProvider "claude" =
      stripTrailingSlash claudeProvider.targetBaseUrl ++ "/messages?x=1" :=
  C1_path_composition.1 claudeProvider rfl "claude" "/messages?x=1"

/-- Claim C10: for a `subpath` target, a request to exactly `/api/\x7btarget\x7d`
composes to the trailing-slash-stripped base URL (empty remainder), and a
request to `/api/\x7btarget\x7d?q=...` composes to the stripped base immediately
followed by the query string. -/
theorem C10_subpath_edge_cases :
    (∀ (p : Provider), p.pathMode = .subpath → ∀ key,
        buildTargetUrl ("/api/" ++ key) p key = stripTrailingSlash p.targetBaseUrl)
  ∧ (∀ (p : Provider), p.pathMode = .subpath → ∀ key q,
        buildTargetUrl ("/api/" ++ key ++ "?" ++ q) p key =
          stripTrailingSlash p.targetBaseUrl ++ ("?" ++ q)) := by
  constructor
  · intro p hm key
    unfold buildTargetUrl
    rw [hm]
    have hlen : ("/api/" ++ key).length = ("/api/" ++ key).data.length := rfl
    simp only [hlen, strDrop_length, string_append_empty]
  · intro p hm key q
    unfold buildTargetUrl
    rw [hm]
    have hurl : "/api/" ++ key ++ "?" ++ q = ("/api/" ++ key) ++ ("?" ++ q) := by
      rw [string_append_assoc]
    rw [hurl]
    have hlen : ("/api/" ++ key).length = ("/api/" ++ key).data.length := rfl
    simp only [hlen, strDrop_append]

/-- Witness for C10 at the claude provider with and without a query string. -/
theorem C10_subpath_edge_cases_witness :
    buildTargetUrl ("/api/" ++ "claude") claudeProvider "claude" =
        stripTrailingSlash claudeProvider.targetBaseUrl
  ∧ buildTargetUrl ("/api/" ++ "claude" ++ "?" ++ "q=1") claudeProvider "claude" =
        stripTrailingSlash claudeProvider.targetBaseUrl ++ ("?" ++ "q=1") :=
  ⟨C10_subpath_edge_cases.1 claudeProvider rfl "claude",
   C10_subpath_edge_cases.2 claudeProvider rfl "claude" "q=1"⟩

/-- Claim C2: transport resolution priority: a per-target value of exactly
`direct` short-circuits to a direct connection regardless of the global
default (in particular with a global HTTP-proxy URL set); otherwise a
non-empty per-target value alone determines the result (the global default
is ignored); otherwise resolution falls back to the global default; with
neither set the result is direct; and a chosen value whose scheme is
unrecognized resolves to direct. -/
theorem C2_transport_resolution :
    (∀ g, resolveProxyConfig (some "direct") g = none)
  ∧ resolveProxyConfig (some "direct") (some "http://proxy.example.com:8080") = none
  ∧ (∀ p g g', p ≠ some "direct" → truthyTrim p ≠ none →
        resolveProxyConfig p g = resolveProxyConfig p g')
  ∧ (∀ p g, p ≠ some "direct" → truthyTrim p = none →
        resolveProxyConfig p g = resolveProxyConfig none g)
  ∧ resolveProxyConfig none none = none
  ∧ (∀ p g raw, p ≠ some "direct" →
        (truthyTrim p).orElse (fun _ => truthyTrim g) = some raw →
        strStartsWith raw "worker://" = false →
        strStartsWith raw "socks5://" = false →
        strStartsWith raw "socks4://" = false →
        strStartsWith raw "socks://" = false →
        strStartsWith raw "http://" = false →
        strStartsWith raw "https://" = false →
        resolveProxyConfig p g = none) := by
  refine ⟨?_, ?_, ?_, ?_, ?_, ?_⟩
  · intro g
    simp [resolveProxyConfig]
  · simp [resolveProxyConfig]
  · intro p g g' hp ht
    obtain ⟨t, htt⟩ := Option.ne_none_iff_exists'.mp ht
    unfold resolveProxyConfig
    rw [htt]
    rw [if_neg hp]
    rw [if_neg hp]
    rfl
  · intro p g hp ht
    unfold resolveProxyConfig
    rw [if_neg hp, ht]
    simp [truthyTrim]
  · simp [resolveProxyConfig, truthyTrim]
  · intro p g raw hp hraw h1 h2 h3 h4 h5 h6
    unfold resolveProxyConfig
    rw [if_neg hp, hraw]
    simp [h1, h2, h3, h4, h5, h6]

/-- Witness for C2: an unrecognized scheme in the per-target override, with a
global HTTP proxy set, resolves to direct. -/
theorem C2_transport_resolution_witness :
    resolveProxyConfig (some "ftp://x") (some "http://proxy.example.com:8080") = none :=
  C2_transport_resolution.2.2.2.2.2 (some "ftp://x")
    (some "http://proxy.example.com:8080") "ftp://x" (by decide) (by decide)
    (by decide) (by decide) (by decide) (by decide) (by decide) (by decide)

/-- `buildForwardHeaders` with a rewrite hook is the hook applied to the
base header set. -/
theorem buildForwardHeaders_some (req : List (String × String))
    (f : List (String × String) → List (String × String)) :
    buildForwardHeaders req (some f) = f (buildForwardHeaders req none) := rfl

/-- The base header set binds nothing outside its four fixed header names. -/
theorem hget_base_other (req : List (String × String)) (key : String)
    (h1 : key ≠ "Content-Type") (h2 : key ≠ "Authorization")
    (h3 : key ≠ "anthropic-version")
    (h4 : key ≠ "anthropic-dangerous-direct-browser-access") :
    hget (buildForwardHeaders req none) key = none := by
  simp only [buildForwardHeaders]
  split_ifs <;>
    simp [hget_hset, Ne.symm h1, Ne.symm h2, Ne.symm h3, Ne.symm h4]

/-- The base header set's `Authorization` entry is the inbound value when
present and non-empty, absent otherwise. -/
theorem hget_base_Authorization (req : List (String × String)) :
    hget (buildForwardHeaders req none) "Authorization" =
      if hgetD req "authorization" = "" then none
      else some (hgetD req "authorization") := by
  simp only [buildForwardHeaders]
  split_ifs <;> simp_all

/-- The base header set's `anthropic-version` entry mirrors the inbound one. -/
theorem hget_base_version (req : List (String × String)) :
    hget (buildForwardHeaders req none) "anthropic-version" =
      if hgetD req "anthropic-version" = "" then none
      else some (hgetD req "anthropic-version") := by
  simp only [buildForwardHeaders]
  split_ifs <;> simp_all

/-- Behaviour of the Claude rewrite hook on a header set carrying a
bearer-style `Authorization` entry. -/
theorem claudeTransform_bearer (hs : List (String × String)) (a : String)
    (hlo : hget hs "authorization" = none)
    (hup : hget hs "Authorization" = some a)
    (hb : strStartsWith a "Bearer " = true) :
    hget (claudeTransformHeaders hs) "Authorization" = none
  ∧ hget (claudeTransformHeaders hs) "authorization" = none
  ∧ hget (claudeTransformHeaders hs) "x-api-key" = some (strDrop a 7) := by
  have ha : a ≠ "" := by
    intro h
    rw [h] at hb
    exact absurd hb (by decide)
  have hauth : jsOrS (hgetD hs "authorization") (jsOrS (hgetD hs "Authorization") "") = a := by
    simp [hgetD, hlo, hup, jsOrS, ha]
  simp only [claudeTransformHeaders, hauth, hb, if_true]
  split_ifs <;> simp

/-- The Claude rewrite hook inserts the default `anthropic-version` when the
incoming header set lacks one. -/
theorem claudeTransform_version_default (hs : List (String × String))
    (hv : hget hs "anthropic-version" = none) :
    hget (claudeTransformHeaders hs) "anthropic-version" = some "2023-06-01" := by
  simp only [claudeTransformHeaders]
  split_ifs <;> simp_all [hgetD]

/-- The Claude rewrite hook always strips the browser-access marker. -/
theorem claudeTransform_strips_browser_access (hs : List (String × String)) :
    hget (claudeTransformHeaders hs) "anthropic-dangerous-direct-browser-access" = none := by
  simp only [claudeTransformHeaders]
  rw [hget_hdel]
  simp

/-- The Claude rewrite hook leaves every header outside its five touched
names untouched. -/
theorem claudeTransform_other (hs : List (String × String)) (k : String)
    (h1 : k ≠ "x-api-key") (h2 : k ≠ "authorization") (h3 : k ≠ "Authorization")
    (h4 : k ≠ "anthropic-version")
    (h5 : k ≠ "anthropic-dangerous-direct-browser-access") :
    hget (claudeTransformHeaders hs) k = hget hs k := by
  simp only [claudeTransformHeaders]
  split_ifs <;>
    simp [hget_hset, hget_hdel, Ne.symm h1, Ne.symm h2, Ne.symm h3,
      Ne.symm h4, Ne.symm h5]

/-- Claim C3: for the Claude target's header rewrite: an inbound bearer-style
authorization is removed from the outbound headers and its credential is
moved into `x-api-key`; an inbound request without `anthropic-version` gets
outbound `anthropic-version: 2023-06-01`; and
`anthropic-dangerous-direct-browser-access` is never present outbound. -/
theorem C3_claude_header_rewrite :
    (∀ req, strStartsWith (hgetD req "authorization") "Bearer " = true →
        hget (buildForwardHeaders req claudeProvider.transformHeaders)
          "Authorization" = none
      ∧ hget (buildForwardHeaders req claudeProvider.transformHeaders)
          "authorization" = none
      ∧ hget (buildForwardHeaders req claudeProvider.transformHeaders)
          "x-api-key" = some (strDrop (hgetD req "authorization") 7))
  ∧ (∀ req, hget req "anthropic-version" = none →
        hget (buildForwardHeaders req claudeProvider.transformHeaders)
          "anthropic-version" = some "2023-06-01")
  ∧ (∀ req, hget (buildForwardHeaders req claudeProvider.transformHeaders)
        "anthropic-dangerous-direct-browser-access" = none) := by
  have hcp : claudeProvider.transformHeaders = some claudeTransformHeaders := rfl
  refine ⟨?_, ?_, ?_⟩
  · intro req hb
    have hne : hgetD req "authorization" ≠ "" := by
      intro h
      rw [h] at hb
      exact absurd hb (by decide)
    rw [hcp, buildForwardHeaders_some]
    exact claudeTransform_bearer (buildForwardHeaders req none)
      (hgetD req "authorization")
      (hget_base_other req "authorization" (by decide) (by decide) (by decide) (by decide))
      (by rw [hget_base_Authorization req, if_neg hne])
      hb
  · intro req hv
    have hv' : hgetD req "anthropic-version" = "" := by simp [hgetD, hv]
    rw [hcp, buildForwardHeaders_some]
    exact claudeTransform_version_default (buildForwardHeaders req none)
      (by rw [hget_base_version req, if_pos hv'])
  · intro req
    rw [hcp, buildForwardHeaders_some]
    exact claudeTransform_strips_browser_access (buildForwardHeaders req none)

/-- Witness for C3 at a concrete inbound request carrying a bearer credential,
no version header, and the browser-access marker. -/
theorem C3_claude_header_rewrite_witness :
    hget (buildForwardHeaders
        [("authorization", "Bearer sk-123"),
         ("anthropic-dangerous-direct-browser-access", "true")]
        claudeProvider.transformHeaders) "x-api-key" =
      some (strDrop (hgetD
        [("authorization", "Bearer sk-123"),
         ("anthropic-dangerous-direct-browser-access", "true")] "authorization") 7)
  ∧ hget (buildForwardHeaders
        [("authorization", "Bearer sk-123"),
         ("anthropic-dangerous-direct-browser-access", "true")]
        claudeProvider.transformHeaders) "anthropic-version" = some "2023-06-01"
  ∧ hget (buildForwardHeaders
        [("authorization", "Bearer sk-123"),
         ("anthropic-dangerous-direct-browser-access", "true")]
        claudeProvider.transformHeaders)
      "anthropic-dangerous-direct-browser-access" = none :=
  ⟨(C3_claude_header_rewrite.1
      [("authorization", "Bearer sk-123"),
       ("anthropic-dangerous-direct-browser-access", "true")] (by decide)).2.2,
   C3_claude_header_rewrite.2.1
      [("authorization", "Bearer sk-123"),
       ("anthropic-dangerous-direct-browser-access", "true")] (by decide),
   C3_claude_header_rewrite.2.2
      [("authorization", "Bearer sk-123"),
       ("anthropic-dangerous-direct-browser-access", "true")]⟩

/-- Claim C5: every failure thrown during dispatch maps to exactly one
classified outcome, in order of inspection: abort/timeout → 504 Gateway
Timeout; connection-refused mentioning the proxy → 502 Proxy Connection
Failed; any other connection-refused or generic fetch failure → 502 Bad
Gateway; every other failure → 500 with a fixed generic body leaking no
internal detail; the classifier is total (status always one of 504/502/500),
so no raw transport exception reaches the client. -/
theorem C5_error_classification :
    (∀ e n, (e.name = "AbortError" ∨ strContains e.message "timeout" = true) →
        handleProxyError e n = (504, ⟨"Gateway Timeout",
          "Request to " ++ n ++ " API timed out",
          "Try again or check the provider status"⟩))
  ∧ (∀ e n, e.name ≠ "AbortError" → strContains e.message "timeout" = false →
        strContains e.message "ECONNREFUSED" = true →
        strContains e.message "proxy" = true →
        handleProxyError e n = (502, ⟨"Proxy Connection Failed",
          "Unable to connect to proxy for " ++ n,
          "Check that the proxy server is running and accessible"⟩))
  ∧ (∀ e n, e.name ≠ "AbortError" → strContains e.message "timeout" = false →
        ¬(strContains e.message "ECONNREFUSED" = true ∧
            strContains e.message "proxy" = true) →
        (strContains e.message "fetch failed" = true ∨
            strContains e.message "ECONNREFUSED" = true) →
        handleProxyError e n = (502, ⟨"Bad Gateway",
          "Unable to connect to " ++ n ++ " API",
          n ++ " may be temporarily unavailable"⟩))
  ∧ (∀ e n, e.name ≠ "AbortError" → strContains e.message "timeout" = false →
        strContains e.message "fetch failed" = false →
        strContains e.message "ECONNREFUSED" = false →
        handleProxyError e n = (500, ⟨"Internal Proxy Error",
          "An unexpected error occurred",
          "Contact proxy administrator if this persists"⟩))
  ∧ (∀ e n, (handleProxyError e n).1 = 504 ∨ (handleProxyError e n).1 = 502 ∨
        (handleProxyError e n).1 = 500) := by
  refine ⟨?_, ?_, ?_, ?_, ?_⟩
  · rintro e n (h | h) <;> simp [handleProxyError, h]
  · intro e n h1 h2 h3 h4
    simp [handleProxyError, h1, h2, h3, h4]
  · rintro e n h1 h2 h3 (h4 | h4) <;>
      simp_all [handleProxyError]
  · intro e n h1 h2 h3 h4
    simp [handleProxyError, h1, h2, h3, h4]
  · intro e n
    unfold handleProxyError
    split_ifs <;> simp

/-- Witness for C5 at concrete abort and unclassified errors. -/
theorem C5_error_classification_witness :
    handleProxyError ⟨"AbortError", "This operation was aborted"⟩ "Groq" =
      (504, ⟨"Gateway Timeout", "Request to " ++ "Groq" ++ " API timed out",
        "Try again or check the provider status"⟩)
  ∧ handleProxyError ⟨"TypeError", "x is not a function"⟩ "Groq" =
      (500, ⟨"Internal Proxy Error", "An unexpected error occurred",
        "Contact proxy administrator if this persists"⟩) :=
  ⟨C5_error_classification.1 ⟨"AbortError", "This operation was aborted"⟩ "Groq"
      (Or.inl rfl),
   C5_error_classification.2.2.2.1 ⟨"TypeError", "x is not a function"⟩ "Groq"
      (by decide) (by decide) (by decide) (by decide)⟩

/-- Claim C7: the Yandex validator rejects a request with no Authorization
header with 401 and a hint giving the expected format; rejects an
Authorization value starting with neither accepted prefix with 401; rejects a
structured-object body missing a required field with 400 listing the field
names actually received; the four rejection bodies are pairwise distinct; and
a request passing every check is not rejected. -/
theorem C7_yandex_validation :
    (∀ hs body, hget hs "authorization" = none → hget hs "Authorization" = none →
        validateYandexRequest hs body = some (401, ⟨"Authorization header is required",
          "Include your Yandex Cloud API key: \"Authorization: Api-Key YOUR_KEY\"", none⟩))
  ∧ (∀ hs body a, hget hs "authorization" = some a → a ≠ "" →
        strStartsWith a "Api-Key " = false → strStartsWith a "Bearer " = false →
        validateYandexRequest hs body = some (401, ⟨"Invalid Authorization format",
          "Use format: \"Api-Key YOUR_KEY\" or \"Bearer YOUR_IAM_TOKEN\"", none⟩))
  ∧ (∀ hs a fields, hget hs "authorization" = some a →
        (strStartsWith a "Api-Key " = true ∨ strStartsWith a "Bearer " = true) →
        (fieldsGet fields "modelUri" = .jsUndefined ∨ fieldsGet fields "messages" = .jsUndefined) →
        validateYandexRequest hs (.obj fields) = some (400, ⟨"Missing required fields",
          "Request must include modelUri and messages", some (fields.map Prod.fst)⟩))
  ∧ ((⟨"Authorization header is required",
        "Include your Yandex Cloud API key: \"Authorization: Api-Key YOUR_KEY\"",
        none⟩ : VError) ≠
      ⟨"Invalid Authorization format",
        "Use format: \"Api-Key YOUR_KEY\" or \"Bearer YOUR_IAM_TOKEN\"", none⟩
    ∧ (⟨"Invalid request body",
        "Send JSON with modelUri, completionOptions, and messages", none⟩ : VError).error ≠
        "Missing required fields"
    ∧ "Authorization header is required" ≠ "Invalid request body"
    ∧ "Authorization header is required" ≠ "Missing required fields"
    ∧ "Invalid Authorization format" ≠ "Invalid request body"
    ∧ "Invalid Authorization format" ≠ "Missing required fields")
  ∧ (∀ hs a fields, hget hs "authorization" = some a →
        (strStartsWith a "Api-Key " = true ∨ strStartsWith a "Bearer " = true) →
        jsTruthy (fieldsGet fields "modelUri") = true →
        jsTruthy (fieldsGet fields "messages") = true →
        validateYandexRequest hs (.obj fields) = none) := by
  refine ⟨?_, ?_, ?_, ?_, ?_⟩
  · intro hs body h1 h2
    simp [validateYandexRequest, hgetD, h1, h2, jsOrS]
  · intro hs body a h1 ha h2 h3
    simp [validateYandexRequest, hgetD, h1, jsOrS, ha, h2, h3]
  · intro hs a fields h1 hpre hmiss
    have ha : a ≠ "" := by
      rcases hpre with h | h
      · exact ne_empty_of_strStartsWith a "Api-Key " (by decide) h
      · exact ne_empty_of_strStartsWith a "Bearer " (by decide) h
    have hfalsy : (jsTruthy (fieldsGet fields "modelUri") = false) ∨
        (jsTruthy (fieldsGet fields "messages") = false) := by
      rcases hmiss with h | h
      · left
        rw [h]
        rfl
      · right
        rw [h]
        rfl
    rcases hpre with hp | hp <;> rcases hfalsy with hf | hf <;>
      simp [validateYandexRequest, hgetD, h1, jsOrS, ha, hp, hf]
  · refine ⟨by decide, by decide, by decide, by decide, by decide, by decide⟩
  · intro hs a fields h1 hpre hm1 hm2
    have ha : a ≠ "" := by
      rcases hpre with h | h
      · exact ne_empty_of_strStartsWith a "Api-Key " (by decide) h
      · exact ne_empty_of_strStartsWith a "Bearer " (by decide) h
    rcases hpre with hp | hp <;>
      simp [validateYandexRequest, hgetD, h1, jsOrS, ha, hp, hm1, hm2]

/-- Witness for C7: a request with no Authorization header is rejected 401,
and a fully valid request passes. -/
theorem C7_yandex_validation_witness :
    validateYandexRequest [] (.obj [("modelUri", .str "gpt://f/yandexgpt")]) =
      some (401, ⟨"Authorization header is required",
        "Include your Yandex Cloud API key: \"Authorization: Api-Key YOUR_KEY\"", none⟩)
  ∧ validateYandexRequest [("authorization", "Api-Key k")]
      (.obj [("modelUri", .str "gpt://f/yandexgpt"), ("messages", .arr [])]) = none :=
  ⟨C7_yandex_validation.1 [] (.obj [("modelUri", .str "gpt://f/yandexgpt")]) rfl rfl,
   C7_yandex_validation.2.2.2.2 [("authorization", "Api-Key k")] "Api-Key k"
      [("modelUri", .str "gpt://f/yandexgpt"), ("messages", .arr [])]
      (by decide) (Or.inl (by decide)) (by decide) (by decide)⟩

/-- Claim C8: when the resolved transport is the relay (the `worker` type),
the outbound call goes to the relay's own endpoint (not the composed upstream
URL), the true upstream URL travels in the `X-Target-URL` side header, the
`X-Auth-Token` side header is attached exactly when the relay secret is
configured (set and non-empty), every Composer-built header is also sent
unchanged, and the Composer never itself emits either side header. -/
theorem C8_relay_transport :
    (∀ (c : ProxyConfig) (hd : Bool) (tok : Option String) (url body : String)
        (hs : List (String × String)), c.type = ProxyType.worker →
        hget hs "X-Auth-Token" = none →
        (proxyFetch (some c) hd tok url hs body).url = c.url
      ∧ (proxyFetch (some c) hd tok url hs body).via = .workerFetch
      ∧ hget (proxyFetch (some c) hd tok url hs body).headers "X-Target-URL" = some url
      ∧ hget (proxyFetch (some c) hd tok url hs body).headers "X-Auth-Token" =
          (match tok with
            | some t => if t = "" then none else some t
            | none => none)
      ∧ (∀ k, k ≠ "X-Target-URL" → k ≠ "X-Auth-Token" →
            hget (proxyFetch (some c) hd tok url hs body).headers k = hget hs k)
      ∧ (proxyFetch (some c) hd tok url hs body).body = body)
  ∧ (∀ req,
        hget (buildForwardHeaders req claudeProvider.transformHeaders) "X-Target-URL" = none
      ∧ hget (buildForwardHeaders req claudeProvider.transformHeaders) "X-Auth-Token" = none
      ∧ hget (buildForwardHeaders req none) "X-Target-URL" = none
      ∧ hget (buildForwardHeaders req none) "X-Auth-Token" = none) := by
  constructor
  · intro c hd tok url body hs hc hnt
    rcases tok with _ | t
    · refine ⟨by simp [proxyFetch, hc], by simp [proxyFetch, hc],
        by simp [proxyFetch, hc, hget_hset],
        by simp [proxyFetch, hc, hget_hset, hnt], ?_, by simp [proxyFetch, hc]⟩
      intro k hk1 hk2
      simp [proxyFetch, hc, hget_hset, Ne.symm hk1]
    · by_cases ht : t = ""
      · subst ht
        refine ⟨by simp [proxyFetch, hc], by simp [proxyFetch, hc],
          by simp [proxyFetch, hc, hget_hset],
          by simp [proxyFetch, hc, hget_hset, hnt], ?_, by simp [proxyFetch, hc]⟩
        intro k hk1 hk2
        simp [proxyFetch, hc, hget_hset, Ne.symm hk1]
      · refine ⟨by simp [proxyFetch, hc, ht], by simp [proxyFetch, hc, ht],
          by simp [proxyFetch, hc, ht, hget_hset],
          by simp [proxyFetch, hc, ht, hget_hset], ?_,
          by simp [proxyFetch, hc, ht]⟩
        intro k hk1 hk2
        simp [proxyFetch, hc, ht, hget_hset, Ne.symm hk1, Ne.symm hk2]
  · intro req
    have hcp : claudeProvider.transformHeaders = some claudeTransformHeaders := rfl
    rw [hcp, buildForwardHeaders_some]
    refine ⟨?_, ?_, ?_, ?_⟩
    · rw [claudeTransform_other _ _ (by decide) (by decide) (by decide) (by decide)
        (by decide)]
      exact hget_base_other req _ (by decide) (by decide) (by decide) (by decide)
    · rw [claudeTransform_other _ _ (by decide) (by decide) (by decide) (by decide)
        (by decide)]
      exact hget_base_other req _ (by decide) (by decide) (by decide) (by decide)
    · exact hget_base_other req _ (by decide) (by decide) (by decide) (by decide)
    · exact hget_base_other req _ (by decide) (by decide) (by decide) (by decide)

/-- Witness for C8 at a concrete relay config, secret, upstream URL, and
Composer-style header set. -/
theorem C8_relay_transport_witness :
    (proxyFetch (some ⟨ProxyType.worker, "https://w.example.workers.dev"⟩) false
        (some "s3cret") "https://api.anthropic.com/v1/messages"
        [("Content-Type", "application/json")] "\x7b\x7d").url =
      "https://w.example.workers.dev"
  ∧ hget (proxyFetch (some ⟨ProxyType.worker, "https://w.example.workers.dev"⟩) false
        (some "s3cret") "https://api.anthropic.com/v1/messages"
        [("Content-Type", "application/json")] "\x7b\x7d").headers "X-Target-URL" =
      some "https://api.anthropic.com/v1/messages"
  ∧ hget (proxyFetch (some ⟨ProxyType.worker, "https://w.example.workers.dev"⟩) false
        (some "s3cret") "https://api.anthropic.com/v1/messages"
        [("Content-Type", "application/json")] "\x7b\x7d").headers "X-Auth-Token" =
      (match (some "s3cret" : Option String) with
        | some t => if t = "" then none else some t
        | none => none) :=
  ⟨(C8_relay_transport.1 ⟨ProxyType.worker, "https://w.example.workers.dev"⟩ false
      (some "s3cret") "https://api.anthropic.com/v1/messages" "\x7b\x7d"
      [("Content-Type", "application/json")] rfl rfl).1,
   (C8_relay_transport.1 ⟨ProxyType.worker, "https://w.example.workers.dev"⟩ false
      (some "s3cret") "https://api.anthropic.com/v1/messages" "\x7b\x7d"
      [("Content-Type", "application/json")] rfl rfl).2.2.1,
   (C8_relay_transport.1 ⟨ProxyType.worker, "https://w.example.workers.dev"⟩ false
      (some "s3cret") "https://api.anthropic.com/v1/messages" "\x7b\x7d"
      [("Content-Type", "application/json")] rfl rfl).2.2.2.1⟩

/-- Claim C4: the limiter is a fixed window of 60 requests per 60000 ms keyed
by client address and target (`ip + "-" + providerKey`): the key map is
injective in the target for a fixed client, so limits on distinct targets are
independent (a step on one key leaves every other key's entry unchanged); and
for 61 requests from one client to one target within a single window, the
first 60 proceed to validation/dispatch and the 61st is answered with the
rate-limited outcome carrying the configured `retryAfter: 60` hint and no
outbound call. -/
theorem C4_rate_limiting :
    (∀ ip k1 k2, rateKey ip k1 = rateKey ip k2 → k1 = k2)
  ∧ (∀ (st : List (String × LimiterEntry)) (k k' : String) (now w m : Nat),
        k ≠ k' → hget (limiterStep w m st k' now).2 k = hget st k)
  ∧ (∀ (ip pk : String) (t₀ : Nat) (ts : List Nat), ts.length = 60 →
        (∀ t ∈ ts, t < t₀ + 60000) →
        (runRouter [] ((ip, pk, t₀) :: ts.map fun t => (ip, pk, t))).1 =
          List.replicate 60 .dispatched ++ [.rateLimited 60]) := by
  refine ⟨?_, ?_, ?_⟩
  · intro ip k1 k2 h
    have hd := congrArg String.data h
    simp only [rateKey, data_append] at hd
    simp at hd
    exact String.ext hd
  · intro st k k' now w m hk
    simp [limiterStep, hget_hset, Ne.symm hk]
  · intro ip pk t₀ ts hlen hmem
    have hstep : routerStep [] ip pk t₀ =
        (.dispatched, hset [] (rateKey ip pk) ⟨1, t₀⟩) := by
      simp [routerStep, limiterStep]
    have hsplit : ts.map (fun t => (ip, pk, t)) =
        (ts.take 59).map (fun t => (ip, pk, t)) ++
          (ts.drop 59).map (fun t => (ip, pk, t)) := by
      rw [← List.map_append, List.take_append_drop]
    have hlen1 : (ts.take 59).length = 59 := by
      rw [List.length_take, hlen]
      decide
    have hlen2 : (ts.drop 59).length = 1 := by
      rw [List.length_drop, hlen]
    have h1 := runRouter_allowed (ts.take 59) (hset [] (rateKey ip pk) ⟨1, t₀⟩)
      ip pk 1 t₀ (by simp [hget_hset])
      (fun t ht => hmem t (List.take_subset 59 ts ht))
      (by rw [hlen1])
    have h1e : hget (runRouter (hset [] (rateKey ip pk) ⟨1, t₀⟩)
        ((ts.take 59).map fun t => (ip, pk, t))).2 (rateKey ip pk) =
        some ⟨60, t₀⟩ := by
      rw [h1.2, hlen1]
    have h2 := runRouter_blocked (ts.drop 59)
      (runRouter (hset [] (rateKey ip pk) ⟨1, t₀⟩)
        ((ts.take 59).map fun t => (ip, pk, t))).2
      ip pk 60 t₀ h1e
      (fun t ht => hmem t (List.drop_subset 59 ts ht))
      (by omega)
    simp only [runRouter, hstep]
    rw [hsplit, runRouter_append]
    rw [h1.1, h2, hlen1, hlen2]
    simp [List.replicate_succ]

/-- Witness for C4: two limiter keys for one client and distinct targets
differ, and 61 same-instant requests yield 60 dispatches then a block. -/
theorem C4_rate_limiting_witness :
    "10.0.0.1-claude" ≠ "10.0.0.1-groq"
  ∧ (runRouter [] (("10.0.0.1", "claude", 0) ::
        (List.replicate 60 0).map fun t => ("10.0.0.1", "claude", t))).1 =
      List.replicate 60 .dispatched ++ [.rateLimited 60] :=
  ⟨fun h => by
      have := C4_rate_limiting.1 "10.0.0.1" "claude" "groq" (by
        simp only [rateKey]
        exact h)
      exact absurd this (by decide),
   C4_rate_limiting.2.2 "10.0.0.1" "claude" 0 (List.replicate 60 0)
      (by simp) (by
        intro t ht
        have := List.eq_of_mem_replicate ht
        omega)⟩

/-- Counterexample to C9 as stated: the body dispatched upstream is not
byte-equal to the raw inbound body: for the inbound JSON body
`\x7b"a": 1\x7d` (a space after the colon) the dispatched body is the
re-serialized `\x7b"a":1\x7d`. -/
theorem C9_counterexample :
    forwardedBody "\x7b\"a\": 1\x7d" = some "\x7b\"a\":1\x7d"
  ∧ forwardedBody "\x7b\"a\": 1\x7d" ≠ some "\x7b\"a\": 1\x7d" := by
  constructor
  · rfl
  · intro h
    have h1 : forwardedBody "\x7b\"a\": 1\x7d" = some "\x7b\"a\":1\x7d" := rfl
    rw [h1] at h
    exact absurd h (by decide)

/-- Claim C9 (amended): the body sent upstream is `JSON.stringify(req.body)`,
the canonical re-serialization of the JSON value parsed from the inbound
body — semantically the inbound JSON, but byte-identical only when the
inbound body is already in canonical serialized form (whitespace is
normalized away). -/
theorem C9_body_reserialization :
    (∀ raw v, jsonParse raw = some v →
        forwardedBody raw = some (jsonStringify v))
  ∧ forwardedBody "\x7b\"a\":1\x7d" = some "\x7b\"a\":1\x7d"
  ∧ forwardedBody "\x7b\"a\": 1\x7d" = some "\x7b\"a\":1\x7d" := by
  refine ⟨?_, rfl, rfl⟩
  intro raw v h
  simp [forwardedBody, h]

/-- Witness for C9 (amended) at a concrete array body. -/
theorem C9_body_reserialization_witness :
    forwardedBody "[1,2]" =
      some (jsonStringify (.arr (.cons (.num 1) (.cons (.num 2) .nil)))) :=
  C9_body_reserialization.1 "[1,2]"
    (.arr (.cons (.num 1) (.cons (.num 2) .nil))) rfl

/-- Counterexample to C6 as stated: an upstream 418 response declaring
`application/json` with an undecodable body is not relayed at status 418 with
a diagnostic envelope — `response.json()` throws, the catch block classifies,
and the client receives 500 Internal Proxy Error. -/
theorem C6_counterexample :
    (routerRelayOutcome 418 "application/json" "oops" "Anthropic Claude").1 = 500
  ∧ (routerRelayOutcome 418 "application/json" "oops" "Anthropic Claude").1 ≠ 418
  ∧ (routerRelayOutcome 418 "application/json" "oops" "Anthropic Claude").2 =
      .failure ⟨"Internal Proxy Error", "An unexpected error occurred",
        "Contact proxy administrator if this persists"⟩ := by
  refine ⟨rfl, ?_, rfl⟩
  have h : (routerRelayOutcome 418 "application/json" "oops" "Anthropic Claude").1
      = 500 := rfl
  rw [h]
  decide

/-- Claim C6 (amended): a decodable upstream body is relayed verbatim at the
upstream status; an undecodable body yields the diagnostic envelope (original
status kept, excerpt truncated to 500 characters) exactly when the upstream
content type does not declare `application/json`; when it does declare JSON,
the thrown decode failure is classified as a 500 Internal Proxy Error instead
of being relayed at the upstream status. -/
theorem C6_relay_decode :
    (∀ status ct text name v, jsonParse text = some v →
        routerRelayOutcome status ct text name = (status, .upstream (.json v)))
  ∧ (∀ status ct text name, jsonParse text = none →
        strContains ct "application/json" = false →
        routerRelayOutcome status ct text name =
          (status, .upstream (.envelope "Non-JSON response from provider" status
            (strTake text 500))))
  ∧ (∀ status ct text name, jsonParse text = none →
        strContains ct "application/json" = true →
        routerRelayOutcome status ct text name =
          (500, .failure ⟨"Internal Proxy Error", "An unexpected error occurred",
            "Contact proxy administrator if this persists"⟩)) := by
  refine ⟨?_, ?_, ?_⟩
  · intro status ct text name v h
    by_cases hct : strContains ct "application/json" = true <;>
      simp [routerRelayOutcome, relayUpstreamBody, h, hct]
  · intro status ct text name h hct
    simp [routerRelayOutcome, relayUpstreamBody, h, hct]
  · intro status ct text name h hct
    have h1 : strContains "Unexpected token" "timeout" = false := by decide
    have h2 : strContains "Unexpected token" "ECONNREFUSED" = false := by decide
    have h3 : strContains "Unexpected token" "fetch failed" = false := by decide
    simp [routerRelayOutcome, relayUpstreamBody, h, hct, handleProxyError,
      jsonSyntaxError, h1, h2, h3]

/-- Witness for C6 (amended): an HTML error page from the upstream is wrapped
in the diagnostic envelope at the original status. -/
theorem C6_relay_decode_witness :
    routerRelayOutcome 502 "text/html" "Bad gateway page" "Groq" =
      (502, .upstream (.envelope "Non-JSON response from provider" 502
        (strTake "Bad gateway page" 500))) :=
  C6_relay_decode.2.1 502 "text/html" "Bad gateway page" "Groq" rfl (by decide)

end FigmaProxy
